import Mathlib

/-!
Shallow embedding of `src/script.js` (the `RollingGallery` browser widget).

Numbers in the source are JS numbers; the claims under verification are about
the arithmetic structure of the state machine (linear drag formula, geometric
velocity decay, snapping to multiples of `360/N`), so we embed them as exact
rationals `ℚ`.  JS-specific numeric operators that the source uses are modelled
explicitly: `%` (remainder keeping the dividend's sign) as `jsRem`, and
`Math.round` (half rounds toward `+∞`) as `jsRound`.

The DOM is modelled by the fields of it that the script reads or writes: the
gallery track's inline style (`transform`, `transition`, `cursor`, `width`) and
the list of rendered items.  `style.transform = rotateY(<d>deg)` is modelled as
storing the angle `d`; `translateZ(radius)` in the item transforms uses
`Math.tan`, a presentation-only real-number quantity no claim refers to, and is
kept as the tangent argument data (face count) via the item angle list.
Timer/animation-frame handles from `setInterval` / `requestAnimationFrame` are
modelled by an allocation counter `nextTimerId` (browser handles are positive,
so JS truthiness checks on them are `Option.isSome` here).
-/

namespace RollingGallery

/-- JS truncation toward zero, as used by the `%` operator. -/
def jsTrunc (q : ℚ) : ℤ := if 0 ≤ q then ⌊q⌋ else ⌈q⌉

/-- JS `a % b`: remainder with the sign of the dividend. -/
def jsRem (a b : ℚ) : ℚ := a - b * jsTrunc (a / b)

/-- JS `Math.round`: round half toward positive infinity. -/
def jsRound (q : ℚ) : ℤ := ⌊q + 1 / 2⌋

/-- The option bag of the constructor, with the defaulted fields of
`this.options` (lines 31-43 of `script.js`). -/
structure Options where
  images : List String
  autoplay : Bool
  pauseOnHover : Bool
  smBreakpoint : ℚ
  autoplayIntervalMs : ℚ
  autoplayRotationDuration : ℚ
  dragFactor : ℚ
  flickDecay : ℚ
  flickMinVelocity : ℚ
  gapFactor : ℚ
deriving DecidableEq, Repr

/-- The default option values from the constructor. -/
def defaultOptions : Options :=
  { images := []
    autoplay := false
    pauseOnHover := false
    smBreakpoint := 640
    autoplayIntervalMs := 4000
    autoplayRotationDuration := 3000
    dragFactor := 5 / 100
    flickDecay := 92 / 100
    flickMinVelocity := 1 / 10
    gapFactor := 95 / 100 }

/-- The inline `style.transition` values the script writes to the track. -/
inductive TransitionStyle where
  /-- the initial empty inline style -/
  | unset : TransitionStyle
  /-- `transition = 'none'` -/
  | off : TransitionStyle
  /-- `transform <seconds>s linear` (autoplay) -/
  | transformLinear (seconds : ℚ) : TransitionStyle
  /-- `transform <seconds>s ease-out` (snap) -/
  | transformEaseOut (seconds : ℚ) : TransitionStyle
deriving DecidableEq, Repr

/-- The inline style of the `.gallery-track` element, as far as the script
touches it. `transform = some d` models `style.transform = rotateY(d deg)`. -/
structure TrackStyle where
  transform : Option ℚ
  transition : TransitionStyle
  cursor : String
  width : Option ℚ
deriving DecidableEq, Repr

/-- One rendered `.gallery-item`: its image URL and its `rotateY` angle in the
circle (`(360 / images.length) * index`, line 301). -/
structure GalleryItem where
  src : String
  angle : ℚ
deriving DecidableEq, Repr

/-- The mutable state of a `RollingGallery` instance: its instance fields plus
the DOM it owns. `galleryTrack = none` models the track element missing. -/
structure State where
  images : List String
  isScreenSizeSm : Bool
  rotationDegrees : ℚ
  autoplayIntervalId : Option ℕ
  animationFrameId : Option ℕ
  isDragging : Bool
  startX : ℚ
  startRotation : ℚ
  lastMoveX : ℚ
  lastMoveTime : ℚ
  currentVelocity : ℚ
  galleryTrack : Option TrackStyle
  items : List GalleryItem
  nextTimerId : ℕ
deriving DecidableEq, Repr

/-- A pointer/touch event, with the fields the handlers read.  `touches` is
`some x` when the event carries a touch list whose first touch has
`clientX = x`, and `none` when `e.touches` is `undefined` (a plain pointer
event).  JS truthiness of `e.touches` is `touches.isSome`. -/
structure PEvent where
  button : ℤ
  clientX : ℚ
  touches : Option ℚ
  pointerId : ℕ
deriving DecidableEq, Repr

/-- `e.clientX || e.touches[0].clientX`: JS falls through to the touch list
when `clientX` is falsy (zero); reading `touches[0]` of an absent list throws,
modelled as `none`. -/
def eventClientX (e : PEvent) : Option ℚ :=
  if e.clientX ≠ 0 then some e.clientX else e.touches

/-- The fallback image URL substituted for an empty image list (line 48). -/
def placeholderImage : String :=
  "https://via.placeholder.com/300x120?text=No+Images"

/-- Lines 45-49: use the passed images, falling back to a single placeholder
when the list is empty. -/
def resolveImages (imgs : List String) : List String :=
  if imgs = [] then [placeholderImage] else imgs

/-- `updateTransform` (lines 313-317): write `rotateY(rotationDegrees deg)` to
the track's transform when the track element exists, otherwise do nothing. -/
def updateTransform (s : State) : State :=
  match s.galleryTrack with
  | some t => { s with galleryTrack := some { t with transform := some s.rotationDegrees } }
  | none => s

/-- `renderGalleryItems` (lines 275-311): pick the face width from the screen
size, set the track width, and lay the images out at angles
`(360 / images.length) * index`.  The `translateZ` radius
`(faceWidth/2) / Math.tan(π / images.length)` is real-valued presentation
data; the model keeps the inputs that determine it (face width and count). -/
def renderGalleryItems (s : State) : State :=
  let faceWidth : ℚ := if s.isScreenSizeSm then 150 else 350
  let items := s.images.mapIdx fun index url =>
    { src := url, angle := (360 / (s.images.length : ℚ)) * index : GalleryItem }
  { s with
    galleryTrack := s.galleryTrack.map fun (t : TrackStyle) => { t with width := some faceWidth }
    items := items }

/-- `startAutoplay` (lines 190-200): bail out when an interval handle already
exists, otherwise set the linear transition and allocate the interval. -/
def startAutoplay (o : Options) (s : State) : State :=
  if s.autoplayIntervalId.isSome then s
  else
    let s :=
      { s with
        galleryTrack := s.galleryTrack.map fun (t : TrackStyle) =>
          { t with transition := .transformLinear (o.autoplayRotationDuration / 1000) } }
    { s with autoplayIntervalId := some s.nextTimerId, nextTimerId := s.nextTimerId + 1 }

/-- The body of the `setInterval` callback of `startAutoplay` (lines 195-199):
one autoplay tick rotates one face counter-clockwise and reapplies the
transform. -/
def autoplayTick (s : State) : State :=
  let rotationPerFace : ℚ := 360 / (s.images.length : ℚ)
  updateTransform { s with rotationDegrees := s.rotationDegrees - rotationPerFace }

/-- `stopAutoplay` (lines 202-207). -/
def stopAutoplay (s : State) : State :=
  if s.autoplayIntervalId.isSome then { s with autoplayIntervalId := none } else s

/-- `cancelFlickAnimation` (lines 247-252). -/
def cancelFlickAnimation (s : State) : State :=
  if s.animationFrameId.isSome then { s with animationFrameId := none } else s

/-- `snapToNearestFace` (lines 254-271): normalize the rotation with JS
`% 360`, round to the nearest face index, and jump there with an ease-out
transition.  The 300 ms deferred transition reset (lines 266-270) is a timer
callback outside the claims and is not modelled. -/
def snapToNearestFace (s : State) : State :=
  let rotationPerFace : ℚ := 360 / (s.images.length : ℚ)
  let normalizedRotation := jsRem s.rotationDegrees 360
  let nearestFaceIndex := jsRound (normalizedRotation / rotationPerFace)
  let targetRotation : ℚ := (nearestFaceIndex : ℚ) * rotationPerFace
  let s :=
    { s with
      galleryTrack := s.galleryTrack.map fun (t : TrackStyle) =>
        { t with transition := .transformEaseOut (3 / 10) } }
  updateTransform { s with rotationDegrees := targetRotation }

/-- The scheduling part of `startFlickAnimation` (lines 221-245): cancel any
running animation and request the first frame.  The frame callback itself is
`flickStep` / `flickRun` below. -/
def startFlickAnimation (s : State) : State :=
  let s := cancelFlickAnimation s
  { s with animationFrameId := some s.nextTimerId, nextTimerId := s.nextTimerId + 1 }

/-- One frame of the `animate` closure (lines 224-231): apply the velocity to
the rotation, update the transform, then decay the velocity. -/
def flickStep (o : Options) (s : State) : State :=
  let s := updateTransform { s with rotationDegrees := s.rotationDegrees + s.currentVelocity }
  { s with currentVelocity := s.currentVelocity * o.flickDecay }

/-- The full `animate` recursion (lines 224-242), fuel-indexed: after each
frame, schedule another iff `|currentVelocity| > flickMinVelocity`, otherwise
snap to the nearest face and restart autoplay when configured.  `none` means
the fuel ran out before the loop finished. -/
def flickRun (o : Options) : ℕ → State → Option State
  | 0, _ => none
  | fuel + 1, s =>
    let s1 := flickStep o s
    if |s1.currentVelocity| > o.flickMinVelocity then
      flickRun o fuel s1
    else
      let s2 := snapToNearestFace s1
      some (if o.autoplay then startAutoplay o s2 else s2)

/-- `handlePointerDown` (lines 128-146).  Returns `none` when the source would
throw (reading `touches[0]` with no touch list and falsy `clientX`). -/
def handlePointerDown (o : Options) (e : PEvent) (now : ℚ) (s : State) : Option State :=
  if e.button ≠ 0 ∧ e.touches = none then some s
  else
    match eventClientX e with
    | none => none
    | some x =>
      let s :=
        { s with
          isDragging := true
          startX := x
          lastMoveX := x
          lastMoveTime := now
          startRotation := s.rotationDegrees
          currentVelocity := 0 }
      let s := stopAutoplay s
      let s := cancelFlickAnimation s
      some { s with
             galleryTrack := s.galleryTrack.map fun (t : TrackStyle) =>
               { t with transition := .off, cursor := "grabbing" } }

/-- `handlePointerMove` (lines 148-168).  `now` is `performance.now()`. -/
def handlePointerMove (o : Options) (e : PEvent) (now : ℚ) (s : State) : Option State :=
  if !s.isDragging then some s
  else
    match eventClientX e with
    | none => none
    | some currentX =>
      let deltaX := currentX - s.startX
      let s1 := { s with rotationDegrees := s.startRotation + deltaX * o.dragFactor }
      let s2 :=
        if now - s1.lastMoveTime > 0 then
          { s1 with currentVelocity :=
              (currentX - s1.lastMoveX) / (now - s1.lastMoveTime) * 1000 * o.dragFactor }
        else s1
      some (updateTransform { s2 with lastMoveX := currentX, lastMoveTime := now })

/-- `handlePointerUp` (lines 170-186): end the drag, then start the flick
animation when the velocity is above the threshold, otherwise snap and restart
autoplay when configured. -/
def handlePointerUp (o : Options) (e : PEvent) (s : State) : State :=
  if !s.isDragging then s
  else
    let s :=
      { s with
        isDragging := false
        galleryTrack := s.galleryTrack.map fun (t : TrackStyle) => { t with cursor := "grab" } }
    if |s.currentVelocity| > o.flickMinVelocity then startFlickAnimation s
    else
      let s := snapToNearestFace s
      if o.autoplay then startAutoplay o s else s

/-- `handleResize` (lines 117-124). -/
def handleResize (o : Options) (innerWidth : ℚ) (s : State) : State :=
  let newIsScreenSizeSm : Bool := decide (innerWidth ≤ o.smBreakpoint)
  if s.isScreenSizeSm ≠ newIsScreenSizeSm then
    updateTransform (renderGalleryItems { s with isScreenSizeSm := newIsScreenSizeSm })
  else s

/-- `handleMouseEnter` (lines 209-213). -/
def handleMouseEnter (o : Options) (s : State) : State :=
  if o.pauseOnHover then stopAutoplay s else s

/-- `handleMouseLeave` (lines 215-219). -/
def handleMouseLeave (o : Options) (s : State) : State :=
  if o.pauseOnHover ∧ o.autoplay then startAutoplay o s else s

/-- The track element right after `renderBaseStructure` + `getElements`: an
empty inline style. -/
def initialTrack : TrackStyle :=
  { transform := none, transition := .unset, cursor := "", width := none }

/-- The constructor (lines 29-65) followed by `init` (lines 67-77):
resolve the images, initialise the instance fields, render the base structure
and the items, apply the initial transform, and start autoplay if asked. -/
def mkGallery (o : Options) (innerWidth : ℚ) : State :=
  let s0 : State :=
    { images := resolveImages o.images
      isScreenSizeSm := decide (innerWidth ≤ o.smBreakpoint)
      rotationDegrees := 0
      autoplayIntervalId := none
      animationFrameId := none
      isDragging := false
      startX := 0
      startRotation := 0
      lastMoveX := 0
      lastMoveTime := 0
      currentVelocity := 0
      galleryTrack := some initialTrack
      items := []
      nextTimerId := 1 }
  let s1 := renderGalleryItems s0
  let s2 := updateTransform s1
  if o.autoplay then startAutoplay o s2 else s2

/-- Every externally triggered transition of the state machine: the event
handlers, the timer/animation callbacks they schedule, and the internal
helpers. -/
inductive Op where
  | pointerDown (e : PEvent) (now : ℚ) : Op
  | pointerMove (e : PEvent) (now : ℚ) : Op
  | pointerUp (e : PEvent) : Op
  | autoplayTickOp : Op
  | startAutoplayOp : Op
  | stopAutoplayOp : Op
  | flickFrame : Op
  | snapOp : Op
  | updateTransformOp : Op
  | resize (innerWidth : ℚ) : Op
  | mouseEnter : Op
  | mouseLeave : Op

/-- Apply one transition. -/
def applyOp (o : Options) (op : Op) (s : State) : Option State :=
  match op with
  | .pointerDown e now => handlePointerDown o e now s
  | .pointerMove e now => handlePointerMove o e now s
  | .pointerUp e => some (handlePointerUp o e s)
  | .autoplayTickOp => some (autoplayTick s)
  | .startAutoplayOp => some (startAutoplay o s)
  | .stopAutoplayOp => some (stopAutoplay s)
  | .flickFrame => some (flickStep o s)
  | .snapOp => some (snapToNearestFace s)
  | .updateTransformOp => some (updateTransform s)
  | .resize w => some (handleResize o w s)
  | .mouseEnter => some (handleMouseEnter o s)
  | .mouseLeave => some (handleMouseLeave o s)

/-- Apply a sequence of transitions. -/
def applyOps (o : Options) (ops : List Op) (s : State) : Option State :=
  match ops with
  | [] => some s
  | op :: rest => (applyOp o op s).bind (applyOps o rest)

/-! ### Frame lemmas for `updateTransform` -/

@[simp] lemma updateTransform_rotationDegrees (s : State) :
    (updateTransform s).rotationDegrees = s.rotationDegrees := by
  unfold updateTransform; split <;> rfl

@[simp] lemma updateTransform_images (s : State) :
    (updateTransform s).images = s.images := by
  unfold updateTransform; split <;> rfl

@[simp] lemma updateTransform_isScreenSizeSm (s : State) :
    (updateTransform s).isScreenSizeSm = s.isScreenSizeSm := by
  unfold updateTransform; split <;> rfl

@[simp] lemma updateTransform_autoplayIntervalId (s : State) :
    (updateTransform s).autoplayIntervalId = s.autoplayIntervalId := by
  unfold updateTransform; split <;> rfl

@[simp] lemma updateTransform_animationFrameId (s : State) :
    (updateTransform s).animationFrameId = s.animationFrameId := by
  unfold updateTransform; split <;> rfl

@[simp] lemma updateTransform_isDragging (s : State) :
    (updateTransform s).isDragging = s.isDragging := by
  unfold updateTransform; split <;> rfl

@[simp] lemma updateTransform_startX (s : State) :
    (updateTransform s).startX = s.startX := by
  unfold updateTransform; split <;> rfl

@[simp] lemma updateTransform_startRotation (s : State) :
    (updateTransform s).startRotation = s.startRotation := by
  unfold updateTransform; split <;> rfl

@[simp] lemma updateTransform_lastMoveX (s : State) :
    (updateTransform s).lastMoveX = s.lastMoveX := by
  unfold updateTransform; split <;> rfl

@[simp] lemma updateTransform_lastMoveTime (s : State) :
    (updateTransform s).lastMoveTime = s.lastMoveTime := by
  unfold updateTransform; split <;> rfl

@[simp] lemma updateTransform_currentVelocity (s : State) :
    (updateTransform s).currentVelocity = s.currentVelocity := by
  unfold updateTransform; split <;> rfl

@[simp] lemma updateTransform_items (s : State) :
    (updateTransform s).items = s.items := by
  unfold updateTransform; split <;> rfl

@[simp] lemma updateTransform_nextTimerId (s : State) :
    (updateTransform s).nextTimerId = s.nextTimerId := by
  unfold updateTransform; split <;> rfl

@[simp] lemma updateTransform_galleryTrack (s : State) :
    (updateTransform s).galleryTrack
      = s.galleryTrack.map fun (t : TrackStyle) =>
          { t with transform := some s.rotationDegrees } := by
  unfold updateTransform
  cases h : s.galleryTrack
  · simp [h]
  · rfl

lemma updateTransform_of_no_track (s : State) (h : s.galleryTrack = none) :
    updateTransform s = s := by
  unfold updateTransform
  rw [h]

/-! ### Rounding: `jsRound` is Mathlib's `round`, which picks the nearest
integer -/

lemma jsRound_eq_round (q : ℚ) : jsRound q = round q := by
  rw [jsRound, round_eq]

/-- The snapped value `jsRound (r / p) * p` is at least as close to `r` as any
other integer multiple of a positive step `p`. -/
lemma jsRound_mul_nearest (p r : ℚ) (hp : 0 < p) (m : ℤ) :
    |(jsRound (r / p) : ℚ) * p - r| ≤ |(m : ℚ) * p - r| := by
  have hmul : ∀ z : ℤ, |(z : ℚ) * p - r| = |r / p - (z : ℚ)| * p := by
    intro z
    have hz : (z : ℚ) * p - r = -((r / p - z) * p) := by
      field_simp
      ring
    rw [hz, abs_neg, abs_mul, abs_of_pos hp]
  rw [hmul, hmul, jsRound_eq_round]
  exact mul_le_mul_of_nonneg_right (round_le (r / p) m) hp.le

/-! ### What `snapToNearestFace` does to the rotation -/

lemma snapToNearestFace_rotationDegrees (s : State) :
    (snapToNearestFace s).rotationDegrees =
      (jsRound (jsRem s.rotationDegrees 360 / (360 / (s.images.length : ℚ))) : ℚ)
        * (360 / (s.images.length : ℚ)) := by
  unfold snapToNearestFace
  simp

@[simp] lemma snapToNearestFace_images (s : State) :
    (snapToNearestFace s).images = s.images := by
  unfold snapToNearestFace
  simp

/-! ### Frame lemmas for the other operations -/

@[simp] lemma stopAutoplay_images (s : State) :
    (stopAutoplay s).images = s.images := by
  unfold stopAutoplay; split <;> rfl

@[simp] lemma cancelFlickAnimation_images (s : State) :
    (cancelFlickAnimation s).images = s.images := by
  unfold cancelFlickAnimation; split <;> rfl

@[simp] lemma startAutoplay_images (o : Options) (s : State) :
    (startAutoplay o s).images = s.images := by
  unfold startAutoplay; split <;> rfl

@[simp] lemma startAutoplay_rotationDegrees (o : Options) (s : State) :
    (startAutoplay o s).rotationDegrees = s.rotationDegrees := by
  unfold startAutoplay; split <;> rfl

@[simp] lemma startFlickAnimation_images (s : State) :
    (startFlickAnimation s).images = s.images := by
  unfold startFlickAnimation
  simp

@[simp] lemma flickStep_images (o : Options) (s : State) :
    (flickStep o s).images = s.images := by
  unfold flickStep
  simp

@[simp] lemma flickStep_rotationDegrees (o : Options) (s : State) :
    (flickStep o s).rotationDegrees = s.rotationDegrees + s.currentVelocity := by
  unfold flickStep
  simp

@[simp] lemma flickStep_currentVelocity (o : Options) (s : State) :
    (flickStep o s).currentVelocity = s.currentVelocity * o.flickDecay := by
  unfold flickStep
  simp

@[simp] lemma renderGalleryItems_images (s : State) :
    (renderGalleryItems s).images = s.images := by
  unfold renderGalleryItems
  simp

@[simp] lemma autoplayTick_images (s : State) :
    (autoplayTick s).images = s.images := by
  unfold autoplayTick
  simp

@[simp] lemma handleResize_images (o : Options) (w : ℚ) (s : State) :
    (handleResize o w s).images = s.images := by
  simp only [handleResize]
  split_ifs <;> simp

@[simp] lemma handleMouseEnter_images (o : Options) (s : State) :
    (handleMouseEnter o s).images = s.images := by
  unfold handleMouseEnter; split <;> simp

@[simp] lemma handleMouseLeave_images (o : Options) (s : State) :
    (handleMouseLeave o s).images = s.images := by
  unfold handleMouseLeave; split <;> simp

@[simp] lemma handlePointerUp_images (o : Options) (e : PEvent) (s : State) :
    (handlePointerUp o e s).images = s.images := by
  simp only [handlePointerUp]
  split_ifs <;> simp

lemma handlePointerDown_images (o : Options) (e : PEvent) (now : ℚ)
    (s s' : State) (h : handlePointerDown o e now s = some s') :
    s'.images = s.images := by
  unfold handlePointerDown at h
  split at h
  · exact (Option.some_inj.mp h) ▸ rfl
  · cases hx : eventClientX e <;> rw [hx] at h
    · exact absurd h (by simp)
    · simp only [Option.some_inj] at h
      subst h
      simp

lemma handlePointerMove_images (o : Options) (e : PEvent) (now : ℚ)
    (s s' : State) (h : handlePointerMove o e now s = some s') :
    s'.images = s.images := by
  unfold handlePointerMove at h
  split at h
  · exact (Option.some_inj.mp h) ▸ rfl
  · cases hx : eventClientX e <;> rw [hx] at h
    · exact absurd h (by simp)
    · simp only [Option.some_inj] at h
      subst h
      split <;> simp

/-! ### The flick loop: unfolding, termination, and where it lands -/

lemma flickRun_succ (o : Options) (fuel : ℕ) (s : State) :
    flickRun o (fuel + 1) s =
      if |(flickStep o s).currentVelocity| > o.flickMinVelocity then
        flickRun o fuel (flickStep o s)
      else
        some (if o.autoplay then startAutoplay o (snapToNearestFace (flickStep o s))
              else snapToNearestFace (flickStep o s)) := rfl

/-- With a decay factor in `[0, 1]`, once `|currentVelocity| * flickDecay ^ fuel`
is at or below the threshold, `fuel + 1` frames suffice for the loop to
finish. -/
lemma flickRun_isSome (o : Options) (hd0 : 0 ≤ o.flickDecay)
    (hd1 : o.flickDecay ≤ 1) :
    ∀ fuel : ℕ, ∀ s : State,
      |s.currentVelocity| * o.flickDecay ^ fuel ≤ o.flickMinVelocity →
      ∃ s', flickRun o (fuel + 1) s = some s' := by
  intro fuel
  induction fuel with
  | zero =>
    intro s h
    rw [pow_zero, mul_one] at h
    have hv : |(flickStep o s).currentVelocity| ≤ o.flickMinVelocity := by
      rw [flickStep_currentVelocity, abs_mul, abs_of_nonneg hd0]
      exact le_trans (mul_le_of_le_one_right (abs_nonneg _) hd1) h
    rw [flickRun_succ, if_neg (not_lt.mpr hv)]
    exact ⟨_, rfl⟩
  | succ n ih =>
    intro s h
    rw [flickRun_succ]
    by_cases hc : |(flickStep o s).currentVelocity| > o.flickMinVelocity
    · rw [if_pos hc]
      apply ih
      rw [flickStep_currentVelocity, abs_mul, abs_of_nonneg hd0]
      calc |s.currentVelocity| * o.flickDecay * o.flickDecay ^ n
          = |s.currentVelocity| * o.flickDecay ^ (n + 1) := by ring
        _ ≤ o.flickMinVelocity := h
    · rw [if_neg hc]
      exact ⟨_, rfl⟩

/-- Whenever the flick loop finishes, the images are untouched and the final
rotation is an integer multiple of `360 / images.length`. -/
lemma flickRun_some_props (o : Options) :
    ∀ fuel : ℕ, ∀ s s' : State, flickRun o fuel s = some s' →
      s'.images = s.images ∧
      ∃ k : ℤ, s'.rotationDegrees = (k : ℚ) * (360 / (s'.images.length : ℚ)) := by
  intro fuel
  induction fuel with
  | zero => intro s s' h; exact absurd h (by simp [flickRun])
  | succ n ih =>
    intro s s' h
    rw [flickRun_succ] at h
    split at h
    · obtain ⟨h1, h2⟩ := ih _ _ h
      exact ⟨h1.trans (flickStep_images o s), h2⟩
    · simp only [Option.some_inj] at h
      have himg : s'.images = s.images := by
        subst h
        split <;> simp
      refine ⟨himg, ?_⟩
      have hrot : s'.rotationDegrees
          = (snapToNearestFace (flickStep o s)).rotationDegrees := by
        subst h
        split
        · simp
        · rfl
      have himg2 : (snapToNearestFace (flickStep o s)).images = s.images := by simp
      rw [hrot, snapToNearestFace_rotationDegrees]
      refine ⟨jsRound (jsRem (flickStep o s).rotationDegrees 360
        / (360 / ((flickStep o s).images.length : ℚ))), ?_⟩
      rw [flickStep_images, himg]

/-! ### What one pointer-move does -/

/-- During a drag, a pointer-move with resolved position `x` succeeds and sets
the rotation to `startRotation + (x - startX) * dragFactor`, leaving the drag
anchors unchanged. -/
lemma handlePointerMove_spec (o : Options) (e : PEvent) (now : ℚ) (s : State)
    (hd : s.isDragging = true) (x : ℚ) (hx : eventClientX e = some x) :
    ∃ s', handlePointerMove o e now s = some s' ∧
      s'.rotationDegrees = s.startRotation + (x - s.startX) * o.dragFactor ∧
      s'.isDragging = true ∧ s'.startX = s.startX ∧
      s'.startRotation = s.startRotation := by
  unfold handlePointerMove
  rw [hd, hx]
  simp only [Bool.not_true, Bool.false_eq_true, if_false]
  split <;>
    exact ⟨_, rfl, by simp [hd]⟩

/-! ### Concrete states and events used as test inputs -/

/-- A four-image gallery at rest, as produced right after construction. -/
def baseState : State :=
  { images := ["img0.jpg", "img1.jpg", "img2.jpg", "img3.jpg"]
    isScreenSizeSm := false
    rotationDegrees := 0
    autoplayIntervalId := none
    animationFrameId := none
    isDragging := false
    startX := 0
    startRotation := 0
    lastMoveX := 0
    lastMoveTime := 0
    currentVelocity := 0
    galleryTrack := some initialTrack
    items := []
    nextTimerId := 1 }

/-- `baseState` spun past a full turn: rotation `370°`. -/
def spunState : State := { baseState with rotationDegrees := 370 }

/-- `baseState` in the middle of a drag that started at `x = 100`,
rotation `20°`. -/
def dragState : State :=
  { baseState with isDragging := true, startX := 100, startRotation := 20,
                   lastMoveX := 100, lastMoveTime := 0 }

/-- A primary-button pointer event at `x = 110`. -/
def moveEvent1 : PEvent :=
  { button := 0, clientX := 110, touches := none, pointerId := 1 }

/-- A primary-button pointer event at `x = 130`. -/
def moveEvent2 : PEvent :=
  { button := 0, clientX := 130, touches := none, pointerId := 1 }

/-- A secondary-button (right-click) pointer event with no touch list. -/
def rightClickEvent : PEvent :=
  { button := 2, clientX := 50, touches := none, pointerId := 1 }

example : jsRem 370 360 = 10 := by norm_num [jsRem, jsTrunc]

example : jsRem (-370) 360 = -10 := by norm_num [jsRem, jsTrunc, Int.ceil_neg]

example : (snapToNearestFace spunState).rotationDegrees = 0 := by
  rw [snapToNearestFace_rotationDegrees]
  norm_num [spunState, baseState, jsRem, jsTrunc, jsRound]

/-! ### Remaining helpers: images through the constructor and through any
operation -/

lemma mkGallery_images (o : Options) (w : ℚ) :
    (mkGallery o w).images = resolveImages o.images := by
  simp only [mkGallery]
  split_ifs <;> simp

lemma applyOp_images (o : Options) (op : Op) (s s' : State)
    (h : applyOp o op s = some s') : s'.images = s.images := by
  cases op with
  | pointerDown e now => exact handlePointerDown_images o e now s s' h
  | pointerMove e now => exact handlePointerMove_images o e now s s' h
  | pointerUp e =>
    simp only [applyOp, Option.some_inj] at h; subst h; simp
  | autoplayTickOp =>
    simp only [applyOp, Option.some_inj] at h; subst h; simp
  | startAutoplayOp =>
    simp only [applyOp, Option.some_inj] at h; subst h; simp
  | stopAutoplayOp =>
    simp only [applyOp, Option.some_inj] at h; subst h; simp
  | flickFrame =>
    simp only [applyOp, Option.some_inj] at h; subst h; simp
  | snapOp =>
    simp only [applyOp, Option.some_inj] at h; subst h; simp
  | updateTransformOp =>
    simp only [applyOp, Option.some_inj] at h; subst h; simp
  | resize w =>
    simp only [applyOp, Option.some_inj] at h; subst h; simp
  | mouseEnter =>
    simp only [applyOp, Option.some_inj] at h; subst h; simp
  | mouseLeave =>
    simp only [applyOp, Option.some_inj] at h; subst h; simp

lemma applyOps_images (o : Options) :
    ∀ ops : List Op, ∀ s s' : State, applyOps o ops s = some s' →
      s'.images = s.images := by
  intro ops
  induction ops with
  | nil =>
    intro s s' h
    simp only [applyOps, Option.some_inj] at h
    subst h; rfl
  | cons op rest ih =>
    intro s s' h
    simp only [applyOps] at h
    cases hmid : applyOp o op s <;> rw [hmid] at h
    · exact absurd h (by simp)
    · exact (ih _ _ h).trans (applyOp_images o op s _ hmid)

/-! ## The claims -/

/-- C1 (corrected).  When a flick ends or the pointer is released with
`|currentVelocity| ≤ flickMinVelocity`, `snapToNearestFace` sets
`rotationDegrees` to the multiple of `360/images.length` that is nearest to
the JS-normalized rotation `rotationDegrees % 360` (remainder keeping the
dividend's sign; ties round toward `+∞`) — not to `rotationDegrees` itself.
The snapped value is always an integer multiple of `360/images.length`, and
the low-velocity release path lands exactly on the snap of the pre-release
state. -/
theorem C1_snap_rounds_normalized_rotation (o : Options) (e : PEvent)
    (s : State) (himg : s.images ≠ []) :
    (∃ k : ℤ, (snapToNearestFace s).rotationDegrees
        = (k : ℚ) * (360 / (s.images.length : ℚ))) ∧
    (∀ m : ℤ,
      |(snapToNearestFace s).rotationDegrees - jsRem s.rotationDegrees 360|
        ≤ |(m : ℚ) * (360 / (s.images.length : ℚ))
            - jsRem s.rotationDegrees 360|) ∧
    (s.isDragging = true → ¬(|s.currentVelocity| > o.flickMinVelocity) →
      o.autoplay = false →
      (handlePointerUp o e s).rotationDegrees
        = (snapToNearestFace s).rotationDegrees) := by
  have hlen : 0 < (s.images.length : ℚ) := by
    exact_mod_cast List.length_pos.mpr himg
  have hp : 0 < 360 / (s.images.length : ℚ) := div_pos (by norm_num) hlen
  refine ⟨⟨_, snapToNearestFace_rotationDegrees s⟩, fun m => ?_,
    fun hd hv ha => ?_⟩
  · rw [snapToNearestFace_rotationDegrees]
    exact jsRound_mul_nearest _ _ hp m
  · unfold handlePointerUp
    rw [hd]
    simp only [Bool.not_true, Bool.false_eq_true, if_false]
    rw [if_neg hv, ha]
    simp [snapToNearestFace_rotationDegrees]

/-- C1 counterexample: with four images and `rotationDegrees = 370°`, the
code snaps to `0°`, although the multiple of `90°` nearest to `370°` is
`360°` (distance `10°` versus `370°`). -/
theorem C1_counterexample :
    ¬ (∀ m : ℤ,
      |(snapToNearestFace spunState).rotationDegrees
          - spunState.rotationDegrees|
        ≤ |(m : ℚ) * (360 / (spunState.images.length : ℚ))
            - spunState.rotationDegrees|) := by
  intro h
  have h0 : (snapToNearestFace spunState).rotationDegrees = 0 := by
    rw [snapToNearestFace_rotationDegrees]
    norm_num [spunState, baseState, jsRem, jsTrunc, jsRound]
  have h4 := h 4
  rw [h0] at h4
  norm_num [spunState, baseState] at h4

/-- C1 witness: the theorem applied to a concrete mid-drag four-image state
with zero velocity and autoplay off. -/
theorem C1_witness :
    (∃ k : ℤ, (snapToNearestFace dragState).rotationDegrees
        = (k : ℚ) * (360 / (dragState.images.length : ℚ))) ∧
    (handlePointerUp defaultOptions moveEvent1 dragState).rotationDegrees
        = (snapToNearestFace dragState).rotationDegrees :=
  ⟨(C1_snap_rounds_normalized_rotation defaultOptions moveEvent1 dragState
      (by simp [dragState, baseState])).1,
   (C1_snap_rounds_normalized_rotation defaultOptions moveEvent1 dragState
      (by simp [dragState, baseState])).2.2 rfl
      (by norm_num [dragState, baseState, defaultOptions]) rfl⟩


/-- C2 (confirmed).  During a drag, a pointer-move at horizontal position
`x` sets `rotationDegrees` to `startRotation + (x - startX) * dragFactor`,
where `startX` and `startRotation` were recorded at pointer-down; after a
second move at position `x2` the rotation is the same expression in `x2`, so
the rotation depends only on the current pointer position, not on the
intermediate moves. -/
theorem C2_drag_rotation_is_absolute (o : Options) (e1 e2 : PEvent)
    (t1 t2 : ℚ) (s : State) (x1 x2 : ℚ) (hd : s.isDragging = true)
    (h1 : eventClientX e1 = some x1) (h2 : eventClientX e2 = some x2) :
    ∃ s1 s2, handlePointerMove o e1 t1 s = some s1 ∧
      s1.rotationDegrees = s.startRotation + (x1 - s.startX) * o.dragFactor ∧
      handlePointerMove o e2 t2 s1 = some s2 ∧
      s2.rotationDegrees = s.startRotation + (x2 - s.startX) * o.dragFactor := by
  obtain ⟨s1, hs1, hrot1, hd1, hsx1, hsr1⟩ :=
    handlePointerMove_spec o e1 t1 s hd x1 h1
  obtain ⟨s2, hs2, hrot2, _, _, _⟩ :=
    handlePointerMove_spec o e2 t2 s1 hd1 x2 h2
  exact ⟨s1, s2, hs1, hrot1, hs2, by rw [hrot2, hsx1, hsr1]⟩

/-- C2 witness: two concrete moves (to `x = 110` then `x = 130`) on a drag
that started at `x = 100` with rotation `20°`. -/
theorem C2_witness :
    ∃ s1 s2, handlePointerMove defaultOptions moveEvent1 10 dragState
        = some s1 ∧
      s1.rotationDegrees = dragState.startRotation
        + (110 - dragState.startX) * defaultOptions.dragFactor ∧
      handlePointerMove defaultOptions moveEvent2 20 s1 = some s2 ∧
      s2.rotationDegrees = dragState.startRotation
        + (130 - dragState.startX) * defaultOptions.dragFactor :=
  C2_drag_rotation_is_absolute defaultOptions moveEvent1 moveEvent2 10 20
    dragState 110 130 rfl
    (by norm_num [eventClientX, moveEvent1])
    (by norm_num [eventClientX, moveEvent2])

/-- C3 (confirmed).  With `0 < flickDecay < 1` and `flickMinVelocity > 0`,
the flick loop finishes within some finite number of frames for every release
velocity, after which the snap leaves `rotationDegrees` at an integer
multiple of `360 / images.length` and the image list is untouched. -/
theorem C3_flick_terminates_at_face (o : Options) (s : State)
    (hd0 : 0 < o.flickDecay) (hd1 : o.flickDecay < 1)
    (hm : 0 < o.flickMinVelocity) (himg : s.images ≠ []) :
    ∃ fuel s', flickRun o fuel s = some s' ∧ s'.images = s.images ∧
      ∃ k : ℤ, s'.rotationDegrees
        = (k : ℚ) * (360 / (s'.images.length : ℚ)) := by
  obtain ⟨n, hn⟩ : ∃ n : ℕ,
      |s.currentVelocity| * o.flickDecay ^ n ≤ o.flickMinVelocity := by
    by_cases hv : |s.currentVelocity| ≤ o.flickMinVelocity
    · exact ⟨0, by simpa using hv⟩
    · push_neg at hv
      have hvpos : 0 < |s.currentVelocity| := lt_trans hm hv
      obtain ⟨n, hn⟩ := exists_pow_lt_of_lt_one (div_pos hm hvpos) hd1
      refine ⟨n, ?_⟩
      rw [mul_comm]
      exact ((lt_div_iff₀ hvpos).mp hn).le
  obtain ⟨s', hs'⟩ := flickRun_isSome o hd0.le hd1.le n s hn
  obtain ⟨hi, hk⟩ := flickRun_some_props o (n + 1) s s' hs'
  exact ⟨n + 1, s', hs', hi, hk⟩

/-- C3 witness: the default options (decay `0.92`, threshold `0.1`) on a
four-image gallery released with velocity `5`. -/
theorem C3_witness :
    ∃ fuel s', flickRun defaultOptions fuel
        { baseState with currentVelocity := 5 } = some s' ∧
      s'.images = { baseState with currentVelocity := 5 }.images ∧
      ∃ k : ℤ, s'.rotationDegrees
        = (k : ℚ) * (360 / (s'.images.length : ℚ)) :=
  C3_flick_terminates_at_face defaultOptions
    { baseState with currentVelocity := 5 }
    (by norm_num [defaultOptions]) (by norm_num [defaultOptions])
    (by norm_num [defaultOptions]) (by simp [baseState])

/-- C4 (confirmed).  Each flick frame adds `currentVelocity` to
`rotationDegrees` and then multiplies `currentVelocity` by `flickDecay`; the
loop runs another frame exactly when the decayed `|currentVelocity|` is
strictly above `flickMinVelocity`, and otherwise snaps (and restarts autoplay
when configured). -/
theorem C4_flick_frame_semantics (o : Options) (s : State) (fuel : ℕ) :
    (flickStep o s).rotationDegrees = s.rotationDegrees + s.currentVelocity ∧
    (flickStep o s).currentVelocity = s.currentVelocity * o.flickDecay ∧
    flickRun o (fuel + 1) s =
      (if |(flickStep o s).currentVelocity| > o.flickMinVelocity then
        flickRun o fuel (flickStep o s)
      else
        some (if o.autoplay then
                startAutoplay o (snapToNearestFace (flickStep o s))
              else snapToNearestFace (flickStep o s))) :=
  ⟨flickStep_rotationDegrees o s, flickStep_currentVelocity o s,
   flickRun_succ o fuel s⟩

/-- C5 (confirmed).  One autoplay tick decreases `rotationDegrees` by exactly
`360 / images.length`, writes the new angle to the track transform, and
changes no other field of the state. -/
theorem C5_autoplay_tick_one_face (s : State) (himg : s.images ≠ []) :
    (autoplayTick s).rotationDegrees
        = s.rotationDegrees - 360 / (s.images.length : ℚ) ∧
    (autoplayTick s).galleryTrack
        = s.galleryTrack.map (fun (t : TrackStyle) =>
            { t with
              transform := some (s.rotationDegrees - 360 / (s.images.length : ℚ)) }) ∧
    (autoplayTick s).images = s.images ∧
    (autoplayTick s).isScreenSizeSm = s.isScreenSizeSm ∧
    (autoplayTick s).autoplayIntervalId = s.autoplayIntervalId ∧
    (autoplayTick s).animationFrameId = s.animationFrameId ∧
    (autoplayTick s).isDragging = s.isDragging ∧
    (autoplayTick s).startX = s.startX ∧
    (autoplayTick s).startRotation = s.startRotation ∧
    (autoplayTick s).lastMoveX = s.lastMoveX ∧
    (autoplayTick s).lastMoveTime = s.lastMoveTime ∧
    (autoplayTick s).currentVelocity = s.currentVelocity ∧
    (autoplayTick s).items = s.items ∧
    (autoplayTick s).nextTimerId = s.nextTimerId := by
  unfold autoplayTick
  simp

/-- C5 witness: one tick on the concrete four-image state. -/
theorem C5_witness :
    (autoplayTick baseState).rotationDegrees
        = baseState.rotationDegrees - 360 / (baseState.images.length : ℚ) ∧
    (autoplayTick baseState).galleryTrack
        = baseState.galleryTrack.map (fun (t : TrackStyle) =>
            { t with
              transform :=
                some (baseState.rotationDegrees - 360 / (baseState.images.length : ℚ)) }) ∧
    (autoplayTick baseState).images = baseState.images ∧
    (autoplayTick baseState).isScreenSizeSm = baseState.isScreenSizeSm ∧
    (autoplayTick baseState).autoplayIntervalId
        = baseState.autoplayIntervalId ∧
    (autoplayTick baseState).animationFrameId = baseState.animationFrameId ∧
    (autoplayTick baseState).isDragging = baseState.isDragging ∧
    (autoplayTick baseState).startX = baseState.startX ∧
    (autoplayTick baseState).startRotation = baseState.startRotation ∧
    (autoplayTick baseState).lastMoveX = baseState.lastMoveX ∧
    (autoplayTick baseState).lastMoveTime = baseState.lastMoveTime ∧
    (autoplayTick baseState).currentVelocity = baseState.currentVelocity ∧
    (autoplayTick baseState).items = baseState.items ∧
    (autoplayTick baseState).nextTimerId = baseState.nextTimerId :=
  C5_autoplay_tick_one_face baseState (by simp [baseState])

/-- `baseState` without a track element in the DOM. -/
def noTrackState : State := { baseState with galleryTrack := none }

/-- `baseState` with an autoplay interval already running (handle `7`). -/
def runningState : State := { baseState with autoplayIntervalId := some 7 }

/-- C6 (confirmed).  Constructing a gallery with an empty image list does not
fail: the constructor substitutes a single placeholder image URL, and the
resulting instance is identical to one constructed with that one-image
list, so every subsequent operation behaves as for a one-image gallery. -/
theorem C6_empty_images_fallback (o : Options) (w : ℚ) (h : o.images = []) :
    (mkGallery o w).images = [placeholderImage] ∧
    mkGallery o w = mkGallery { o with images := [placeholderImage] } w := by
  have hres : resolveImages o.images = resolveImages [placeholderImage] := by
    rw [h]
    rfl
  constructor
  · rw [mkGallery_images, h]
    rfl
  · unfold mkGallery
    rw [hres]
    rfl

/-- C6 witness: the default options carry an empty image list. -/
theorem C6_witness :
    (mkGallery defaultOptions 800).images = [placeholderImage] ∧
    mkGallery defaultOptions 800
      = mkGallery { defaultOptions with images := [placeholderImage] } 800 :=
  C6_empty_images_fallback defaultOptions 800 rfl

/-- C7 (confirmed).  `updateTransform` writes `rotateY(rotationDegrees deg)`
to the track's transform whenever the track element exists, changes no other
part of the state, and is the identity when the track is missing. -/
theorem C7_updateTransform_rotateY (s : State) :
    (updateTransform s).galleryTrack
        = s.galleryTrack.map (fun (t : TrackStyle) =>
            { t with transform := some s.rotationDegrees }) ∧
    (updateTransform s).rotationDegrees = s.rotationDegrees ∧
    (updateTransform s).images = s.images ∧
    (updateTransform s).isScreenSizeSm = s.isScreenSizeSm ∧
    (updateTransform s).autoplayIntervalId = s.autoplayIntervalId ∧
    (updateTransform s).animationFrameId = s.animationFrameId ∧
    (updateTransform s).isDragging = s.isDragging ∧
    (updateTransform s).startX = s.startX ∧
    (updateTransform s).startRotation = s.startRotation ∧
    (updateTransform s).lastMoveX = s.lastMoveX ∧
    (updateTransform s).lastMoveTime = s.lastMoveTime ∧
    (updateTransform s).currentVelocity = s.currentVelocity ∧
    (updateTransform s).items = s.items ∧
    (updateTransform s).nextTimerId = s.nextTimerId ∧
    (s.galleryTrack = none → updateTransform s = s) :=
  ⟨updateTransform_galleryTrack s, updateTransform_rotationDegrees s,
   updateTransform_images s, updateTransform_isScreenSizeSm s,
   updateTransform_autoplayIntervalId s, updateTransform_animationFrameId s,
   updateTransform_isDragging s, updateTransform_startX s,
   updateTransform_startRotation s, updateTransform_lastMoveX s,
   updateTransform_lastMoveTime s, updateTransform_currentVelocity s,
   updateTransform_items s, updateTransform_nextTimerId s,
   updateTransform_of_no_track s⟩

/-- C7 witness: on a state without a track element, `updateTransform` is the
identity. -/
theorem C7_witness : updateTransform noTrackState = noTrackState :=
  (C7_updateTransform_rotateY
      noTrackState).2.2.2.2.2.2.2.2.2.2.2.2.2.2 rfl

/-- C8 (confirmed).  From construction on, the image list never changes under
any sequence of operations, so it stays the resolved list of length at least
one and the divisors `images.length` in `360/images.length` and
`π/images.length` are never zero. -/
theorem C8_images_length_positive_invariant (o : Options) (w : ℚ)
    (ops : List Op) (s' : State)
    (h : applyOps o ops (mkGallery o w) = some s') :
    s'.images = resolveImages o.images ∧ 1 ≤ s'.images.length ∧
      ((s'.images.length : ℚ) ≠ 0) := by
  have h1 : s'.images = (mkGallery o w).images := applyOps_images o ops _ s' h
  rw [mkGallery_images] at h1
  have hlen : 1 ≤ (resolveImages o.images).length := by
    unfold resolveImages
    split
    · simp
    · next hne => exact List.length_pos.mpr hne
  refine ⟨h1, by rw [h1]; exact hlen, ?_⟩
  rw [h1]
  exact_mod_cast Nat.one_le_iff_ne_zero.mp hlen

/-- C8 witness: the empty sequence of operations after constructing with the
default options. -/
theorem C8_witness :
    (mkGallery defaultOptions 800).images
        = resolveImages defaultOptions.images ∧
      1 ≤ (mkGallery defaultOptions 800).images.length ∧
      (((mkGallery defaultOptions 800).images.length : ℚ) ≠ 0) :=
  C8_images_length_positive_invariant defaultOptions 800 [] _ rfl

/-- C9 (confirmed).  `startAutoplay` is idempotent while an interval handle
exists: it returns the state unchanged, so at most one autoplay interval ever
exists. -/
theorem C9_startAutoplay_idempotent (o : Options) (s : State) (i : ℕ)
    (h : s.autoplayIntervalId = some i) : startAutoplay o s = s := by
  unfold startAutoplay
  rw [h]
  rfl

/-- C9 witness: a concrete state whose interval handle is `7`. -/
theorem C9_witness : startAutoplay defaultOptions runningState = runningState :=
  C9_startAutoplay_idempotent defaultOptions runningState 7 rfl

/-- C10 (confirmed).  Pointer events outside an active drag are no-ops: a
pointer-down with a non-primary button and no touch list, and any
pointer-move or pointer-up while `isDragging` is false, return the state
completely unchanged. -/
theorem C10_pointer_events_idle_noop (o : Options) (e : PEvent) (now : ℚ)
    (s : State) :
    (e.button ≠ 0 → e.touches = none →
      handlePointerDown o e now s = some s) ∧
    (s.isDragging = false → handlePointerMove o e now s = some s) ∧
    (s.isDragging = false → handlePointerUp o e s = s) := by
  refine ⟨fun hb ht => ?_, fun hd => ?_, fun hd => ?_⟩
  · unfold handlePointerDown
    rw [if_pos ⟨hb, ht⟩]
  · unfold handlePointerMove
    rw [hd]
    rfl
  · unfold handlePointerUp
    rw [hd]
    rfl

/-- C10 witness: a right-click pointer-down and a move/up pair on the resting
(non-dragging) concrete state. -/
theorem C10_witness :
    handlePointerDown defaultOptions rightClickEvent 0 baseState
        = some baseState ∧
    handlePointerMove defaultOptions rightClickEvent 0 baseState
        = some baseState ∧
    handlePointerUp defaultOptions rightClickEvent baseState = baseState :=
  ⟨(C10_pointer_events_idle_noop defaultOptions rightClickEvent 0
      baseState).1 (by decide) rfl,
   (C10_pointer_events_idle_noop defaultOptions rightClickEvent 0
      baseState).2.1 rfl,
   (C10_pointer_events_idle_noop defaultOptions rightClickEvent 0
      baseState).2.2 rfl⟩

end RollingGallery
